import Mathlib

/-!
Verification of the medical-share-pro repository core: the document
pipeline (OCR extraction, summarization), the share-link manager and the
search/filter engine, shallowly embedded from src/server/routes.ts,
src/shared/schema.ts and the DatabaseStorage snapshot (src/unnamed/part_000).

Timestamps are modelled as natural numbers (milliseconds since the epoch, a
single time zone). JavaScript truthiness on nullable numbers and strings is
modelled explicitly where the source relies on it.
-/

namespace MedShare

/-- A row of the documents table (src/shared/schema.ts) together with the
summary fields the routes read and write via partial updates
(src/server/routes.ts, POST /api/documents/:id/summarize). -/
structure Document where
  id : Nat
  userId : Nat
  name : String
  category : String
  tags : List String
  uploadedAt : Nat
  fileUrl : String
  ocrText : Option String
  ocrStatus : Option String
  ocrError : Option String
  summary : Option String
  summaryStatus : Option String
  summaryError : Option String
deriving DecidableEq, Repr

/-- A row of the share_links table (src/shared/schema.ts). -/
structure ShareLink where
  id : Nat
  documentId : Nat
  token : String
  expiresAt : Option Nat
  accessCount : Nat
  maxAccesses : Option Nat
deriving DecidableEq, Repr

/-- The record store as seen by the routes: the documents and share_links
tables. -/
structure Store where
  documents : List Document
  shareLinks : List ShareLink
deriving DecidableEq, Repr

/-- DatabaseStorage.getDocument: first row with the given id. -/
def getDocument (st : Store) (id : Nat) : Option Document :=
  st.documents.find? (fun d => d.id == id)

/-- DatabaseStorage.updateDocument restricted to a call site: applies the
partial field update f to every row whose id matches. -/
def updateDocumentFields (st : Store) (id : Nat) (f : Document → Document) : Store :=
  { st with documents := st.documents.map (fun d => if d.id == id then f d else d) }

/-- The inner join of documents and share_links on
documents.id = share_links.document_id filtered by token, first row
(DatabaseStorage.getSharedDocument, src/unnamed/part_000 lines 161-168). -/
def sharedJoin (st : Store) (token : String) : Option (Document × ShareLink) :=
  (st.documents.flatMap (fun d =>
    (st.shareLinks.filter (fun l => d.id == l.documentId && l.token == token)).map
      (fun l => (d, l)))).head?

/-- The expiry check of getSharedDocument: a Date is always truthy, so the
link is considered expired exactly when expiresAt is non-null and strictly
in the past (expiresAt < now). -/
def shareLinkExpired (l : ShareLink) (now : Nat) : Bool :=
  match l.expiresAt with
  | some e => decide (e < now)
  | none => false

/-- The access-ceiling check of getSharedDocument: maxAccesses is tested for
JavaScript truthiness, so null and 0 both skip the check; otherwise the
ceiling is reached when accessCount is at least maxAccesses. -/
def shareLinkMaxReached (l : ShareLink) : Bool :=
  match l.maxAccesses with
  | some m => m != 0 && decide (m ≤ l.accessCount)
  | none => false

/-- DatabaseStorage.incrementShareLinkAccess: access_count + 1 on the row
with the given id. -/
def incrementShareLinkAccess (st : Store) (id : Nat) : Store :=
  let links := st.shareLinks.map (fun l =>
    if l.id == id then { l with accessCount := l.accessCount + 1 } else l)
  { st with shareLinks := links }

/-- DatabaseStorage.getSharedDocument (src/unnamed/part_000 lines 160-186):
look up the joined row by token; fail on a missing row, an expired link or a
reached ceiling; otherwise increment the access count and return the
document. -/
def getSharedDocument (st : Store) (token : String) (now : Nat) :
    Option Document × Store :=
  match sharedJoin st token with
  | none => (none, st)
  | some (document, shareLink) =>
    if shareLinkExpired shareLink now then (none, st)
    else if shareLinkMaxReached shareLink then (none, st)
    else (some document, incrementShareLinkAccess st shareLink.id)

/-- Response of GET /api/shared/:token: the document as JSON, or the 404
body "Document not found or link expired". -/
inductive SharedResponse where
  | ok (d : Document)
  | notFound
deriving DecidableEq, Repr

/-- GET /api/shared/:token (src/server/routes.ts lines 356-366). -/
def resolveShared (st : Store) (token : String) (now : Nat) :
    SharedResponse × Store :=
  match getSharedDocument st token now with
  | (none, st2) => (SharedResponse.notFound, st2)
  | (some d, st2) => (SharedResponse.ok d, st2)

/-- The resolvability condition exactly as the spec states it (spec.md
section 3, ShareLink invariant): the link exists AND
(expiresAt is null OR now < expiresAt) AND
(maxAccesses is null OR accessCount < maxAccesses). -/
def specShareLinkResolvable (st : Store) (token : String) (now : Nat) : Bool :=
  match sharedJoin st token with
  | none => false
  | some (_, l) =>
    (match l.expiresAt with
     | none => true
     | some e => decide (now < e)) &&
    (match l.maxAccesses with
     | none => true
     | some m => decide (l.accessCount < m))

/-- A concrete document used in counterexamples and witnesses. -/
def exDoc : Document :=
  { id := 1, userId := 7, name := "Lab results", category := "Labs",
    tags := ["a"], uploadedAt := 500, fileUrl := "uploads/f1",
    ocrText := none, ocrStatus := some "pending", ocrError := none,
    summary := none, summaryStatus := none, summaryError := none }

/-- A share link for exDoc that expires exactly at instant 1000. -/
def exBoundaryLink : ShareLink :=
  { id := 11, documentId := 1, token := "t", expiresAt := some 1000,
    accessCount := 0, maxAccesses := none }

def exBoundarySt : Store := { documents := [exDoc], shareLinks := [exBoundaryLink] }

/-- k successive sequential calls of GET /api/shared/:token with the same
token, threading the store. -/
def resolveIter (st : Store) (token : String) (now : Nat) : Nat → Store
  | 0 => st
  | k + 1 => (resolveShared (resolveIter st token now k) token now).snd

/-- The response of the resolve call that follows k earlier calls. -/
def nthResolveResponse (st : Store) (token : String) (now k : Nat) :
    SharedResponse :=
  (resolveShared (resolveIter st token now k) token now).fst

/-- Observation helper: the access count of the first share_links row. -/
def firstLinkAccessCount (st : Store) : Nat :=
  match st.shareLinks with
  | [] => 0
  | l :: _ => l.accessCount

/-- The body accepted by POST /api/documents/:id/share: req.body is passed
to createShareLink directly, without insertShareLinkSchema validation. -/
structure InsertShareLinkBody where
  expiresInDays : Option Nat
  maxAccesses : Option Nat
deriving DecidableEq, Repr

/-- DatabaseStorage.createShareLink (src/unnamed/part_000 lines 126-142):
expiresAt is set only when expiresInDays is truthy (null and 0 give null);
accessCount starts at the column default 0. The random token and the
generated row id are parameters of the embedding. -/
def createShareLink (st : Store) (documentId : Nat) (options : InsertShareLinkBody)
    (now newId : Nat) (token : String) : ShareLink × Store :=
  let expiry : Option Nat :=
    match options.expiresInDays with
    | some days => if days != 0 then some (now + days * 24 * 60 * 60 * 1000) else none
    | none => none
  let link : ShareLink :=
    { id := newId, documentId := documentId, token := token,
      expiresAt := expiry, accessCount := 0, maxAccesses := options.maxAccesses }
  (link, { st with shareLinks := st.shareLinks ++ [link] })

/-- Response of POST /api/documents/:id/share. -/
inductive ShareResponse where
  | created (l : ShareLink)
  | notFound
deriving DecidableEq, Repr

/-- POST /api/documents/:id/share (src/server/routes.ts lines 241-263):
owner check, then createShareLink on the raw request body. -/
def shareDocument (st : Store) (docId userId : Nat) (body : InsertShareLinkBody)
    (now newId : Nat) (token : String) : ShareResponse × Store :=
  match getDocument st docId with
  | none => (ShareResponse.notFound, st)
  | some doc =>
    if doc.userId != userId then (ShareResponse.notFound, st)
    else
      let res := createShareLink st docId body now newId token
      (ShareResponse.created res.fst, res.snd)

/-- One successful resolve step on a one-document, one-link store: when the
link joins to the document, has no expiry and its ceiling is not reached,
the call returns the document and bumps the access count. -/
theorem resolve_single_ok (d : Document) (l : ShareLink) (now : Nat)
    (hdl : l.documentId = d.id) (hexp : l.expiresAt = none)
    (hmax : shareLinkMaxReached l = false) :
    resolveShared ⟨[d], [l]⟩ l.token now
      = (SharedResponse.ok d, ⟨[d], [{ l with accessCount := l.accessCount + 1 }]⟩) := by
  simp [resolveShared, getSharedDocument, sharedJoin, shareLinkExpired,
    incrementShareLinkAccess, hdl, hexp, hmax]

/-- One failing resolve step on a one-document, one-link store whose access
ceiling is reached: NotFound and the store is unchanged. -/
theorem resolve_single_fail (d : Document) (l : ShareLink) (now : Nat)
    (hdl : l.documentId = d.id) (hexp : l.expiresAt = none)
    (hmax : shareLinkMaxReached l = true) :
    resolveShared ⟨[d], [l]⟩ l.token now = (SharedResponse.notFound, ⟨[d], [l]⟩) := by
  simp [resolveShared, getSharedDocument, sharedJoin, shareLinkExpired,
    incrementShareLinkAccess, hdl, hexp, hmax]

/-- Iterating resolve below the ceiling: after k ≤ N calls the link's access
count is exactly k. -/
theorem resolveIter_single (d : Document) (lid ldoc : Nat) (tok : String)
    (now N : Nat) (hdl : ldoc = d.id) :
    ∀ k, k ≤ N →
      resolveIter ⟨[d], [⟨lid, ldoc, tok, none, 0, some N⟩]⟩ tok now k
        = ⟨[d], [⟨lid, ldoc, tok, none, k, some N⟩]⟩ := by
  intro k
  induction k with
  | zero => intro _; rfl
  | succ k ih =>
    intro hk
    have hkN : k < N := Nat.lt_of_succ_le hk
    have hiter := ih (Nat.le_of_lt hkN)
    have hmax : shareLinkMaxReached ⟨lid, ldoc, tok, none, k, some N⟩ = false := by
      simp [shareLinkMaxReached, Nat.not_le.mpr hkN]
    have hstep := resolve_single_ok d ⟨lid, ldoc, tok, none, k, some N⟩ now hdl rfl hmax
    show (resolveShared (resolveIter ⟨[d], [⟨lid, ldoc, tok, none, 0, some N⟩]⟩ tok now k) tok now).snd = _
    rw [hiter, hstep]

/-- Iterating resolve on a link with maxAccesses = 0: the ceiling check is
skipped (0 is falsy), so after any k calls the access count is k. -/
theorem resolveIter_single_zero (d : Document) (lid ldoc : Nat) (tok : String)
    (now : Nat) (hdl : ldoc = d.id) :
    ∀ k, resolveIter ⟨[d], [⟨lid, ldoc, tok, none, 0, some 0⟩]⟩ tok now k
        = ⟨[d], [⟨lid, ldoc, tok, none, k, some 0⟩]⟩ := by
  intro k
  induction k with
  | zero => rfl
  | succ k ih =>
    have hmax : shareLinkMaxReached ⟨lid, ldoc, tok, none, k, some 0⟩ = false := by
      simp [shareLinkMaxReached]
    have hstep := resolve_single_ok d ⟨lid, ldoc, tok, none, k, some 0⟩ now hdl rfl hmax
    show (resolveShared (resolveIter ⟨[d], [⟨lid, ldoc, tok, none, 0, some 0⟩]⟩ tok now k) tok now).snd = _
    rw [ih, hstep]

/-- C2: on a share link with maxAccesses = N ≥ 1 and no expiry, each of the
first N sequential resolve calls succeeds with the referenced document and
raises accessCount by exactly one (so it equals k + 1 after k + 1 calls),
and the call after the Nth returns NotFound. -/
theorem c2_max_accesses_exact (d : Document) (lid ldoc : Nat) (tok : String)
    (now N : Nat) (hdl : ldoc = d.id) (hN : 1 ≤ N) :
    (∀ k, k < N →
      nthResolveResponse ⟨[d], [⟨lid, ldoc, tok, none, 0, some N⟩]⟩ tok now k
        = SharedResponse.ok d ∧
      firstLinkAccessCount
        (resolveIter ⟨[d], [⟨lid, ldoc, tok, none, 0, some N⟩]⟩ tok now (k + 1))
        = k + 1) ∧
    nthResolveResponse ⟨[d], [⟨lid, ldoc, tok, none, 0, some N⟩]⟩ tok now N
      = SharedResponse.notFound := by
  constructor
  · intro k hk
    have hiter := resolveIter_single d lid ldoc tok now N hdl k (Nat.le_of_lt hk)
    have hmax : shareLinkMaxReached ⟨lid, ldoc, tok, none, k, some N⟩ = false := by
      simp [shareLinkMaxReached, Nat.not_le.mpr hk]
    have hstep := resolve_single_ok d ⟨lid, ldoc, tok, none, k, some N⟩ now hdl rfl hmax
    constructor
    · unfold nthResolveResponse
      rw [hiter, hstep]
    · rw [resolveIter_single d lid ldoc tok now N hdl (k + 1) (Nat.succ_le_of_lt hk)]
      rfl
  · have hiter := resolveIter_single d lid ldoc tok now N hdl N (Nat.le_refl N)
    have hmax : shareLinkMaxReached ⟨lid, ldoc, tok, none, N, some N⟩ = true := by
      simp [shareLinkMaxReached]
      omega
    have hstep := resolve_single_fail d ⟨lid, ldoc, tok, none, N, some N⟩ now hdl rfl hmax
    unfold nthResolveResponse
    rw [hiter, hstep]

/-- C2 witness at N = 2 on a concrete document and link. -/
theorem c2_witness :
    ((1 : Nat) = exDoc.id ∧ 1 ≤ 2) ∧
    ((∀ k, k < 2 →
      nthResolveResponse ⟨[exDoc], [⟨11, 1, "t", none, 0, some 2⟩]⟩ "t" 0 k
        = SharedResponse.ok exDoc ∧
      firstLinkAccessCount
        (resolveIter ⟨[exDoc], [⟨11, 1, "t", none, 0, some 2⟩]⟩ "t" 0 (k + 1))
        = k + 1) ∧
    nthResolveResponse ⟨[exDoc], [⟨11, 1, "t", none, 0, some 2⟩]⟩ "t" 0 2
      = SharedResponse.notFound) :=
  ⟨⟨by decide, by decide⟩,
    c2_max_accesses_exact exDoc 11 1 "t" 0 2 (by decide) (by decide)⟩

/-- C10: the share route applies no schema validation, so a body with
maxAccesses = 0 creates a link with maxAccesses = 0, and on such a link the
truthiness ceiling check never fires: every sequential resolve call on the
existing, unexpired link succeeds and accessCount grows without bound. -/
theorem c10_zero_max_accesses (d : Document) (userId now newId : Nat)
    (tok : String) (hown : d.userId = userId) :
    (shareDocument ⟨[d], []⟩ d.id userId ⟨none, some 0⟩ now newId tok).fst
      = ShareResponse.created ⟨newId, d.id, tok, none, 0, some 0⟩ ∧
    (shareDocument ⟨[d], []⟩ d.id userId ⟨none, some 0⟩ now newId tok).snd
      = ⟨[d], [⟨newId, d.id, tok, none, 0, some 0⟩]⟩ ∧
    (∀ k, nthResolveResponse ⟨[d], [⟨newId, d.id, tok, none, 0, some 0⟩]⟩ tok now k
        = SharedResponse.ok d ∧
      firstLinkAccessCount
        (resolveIter ⟨[d], [⟨newId, d.id, tok, none, 0, some 0⟩]⟩ tok now k) = k) := by
  refine ⟨?_, ?_, ?_⟩
  · simp [shareDocument, getDocument, createShareLink, hown]
  · simp [shareDocument, getDocument, createShareLink, hown]
  · intro k
    have hiter := resolveIter_single_zero d newId d.id tok now rfl k
    have hmax : shareLinkMaxReached ⟨newId, d.id, tok, none, k, some 0⟩ = false := by
      simp [shareLinkMaxReached]
    have hstep := resolve_single_ok d ⟨newId, d.id, tok, none, k, some 0⟩ now rfl rfl hmax
    constructor
    · unfold nthResolveResponse
      rw [hiter, hstep]
    · rw [hiter]
      rfl

/-- C10 witness on a concrete owned document. -/
theorem c10_witness :
    exDoc.userId = 7 ∧
    ((shareDocument ⟨[exDoc], []⟩ exDoc.id 7 ⟨none, some 0⟩ 0 21 "z").fst
      = ShareResponse.created ⟨21, exDoc.id, "z", none, 0, some 0⟩ ∧
    (shareDocument ⟨[exDoc], []⟩ exDoc.id 7 ⟨none, some 0⟩ 0 21 "z").snd
      = ⟨[exDoc], [⟨21, exDoc.id, "z", none, 0, some 0⟩]⟩ ∧
    (∀ k, nthResolveResponse ⟨[exDoc], [⟨21, exDoc.id, "z", none, 0, some 0⟩]⟩ "z" 0 k
        = SharedResponse.ok exDoc ∧
      firstLinkAccessCount
        (resolveIter ⟨[exDoc], [⟨21, exDoc.id, "z", none, 0, some 0⟩]⟩ "z" 0 k) = k)) :=
  ⟨by decide, c10_zero_max_accesses exDoc 7 0 21 "z" (by decide)⟩

/-- Modelled from the spec: revoke(linkId, callerId) is missing from src —
no storage method or route deletes a ShareLink (only creation, listing and
resolution are implemented). Per spec.md section 4.2 it deletes the link
when the caller owns the underlying document, else does nothing. -/
def revoke (st : Store) (linkId callerId : Nat) : Store :=
  match st.shareLinks.find? (fun l => l.id == linkId) with
  | none => st
  | some l =>
    match getDocument st l.documentId with
    | none => st
    | some d =>
      if d.userId == callerId then
        { st with shareLinks := st.shareLinks.filter (fun l2 => l2.id != linkId) }
      else st

/-- If no stored link carries the token, the join is empty. -/
theorem sharedJoin_eq_none (st : Store) (token : String)
    (h : ∀ l ∈ st.shareLinks, l.token ≠ token) :
    sharedJoin st token = none := by
  unfold sharedJoin
  have hnil : (st.documents.flatMap (fun d =>
      (st.shareLinks.filter (fun l => d.id == l.documentId && l.token == token)).map
        (fun l => (d, l)))) = [] := by
    apply List.flatMap_eq_nil_iff.mpr
    intro d _
    have hfil : st.shareLinks.filter
        (fun l => d.id == l.documentId && l.token == token) = [] := by
      apply List.filter_eq_nil_iff.mpr
      intro l hl
      simp only [Bool.and_eq_true, beq_iff_eq, not_and]
      intro _
      exact h l hl
    rw [hfil]
    rfl
  rw [hnil]
  rfl

/-- C7 (spec-modelled revoke): after the owner of the underlying document
revokes a link, resolving its token returns NotFound at every later
instant, regardless of remaining accesses or expiry. -/
theorem c7_revoke_then_notfound (st : Store) (l : ShareLink) (d : Document)
    (callerId now : Nat)
    (hfind : st.shareLinks.find? (fun x => x.id == l.id) = some l)
    (hdoc : getDocument st l.documentId = some d)
    (hown : d.userId = callerId)
    (huniq : ∀ x ∈ st.shareLinks, x.token = l.token → x.id = l.id) :
    (resolveShared (revoke st l.id callerId) l.token now).fst
      = SharedResponse.notFound := by
  have hrev : revoke st l.id callerId
      = { st with shareLinks := st.shareLinks.filter (fun l2 => l2.id != l.id) } := by
    unfold revoke
    rw [hfind]
    simp [hdoc, hown]
  rw [hrev]
  have hjoin : sharedJoin
      { st with shareLinks := st.shareLinks.filter (fun l2 => l2.id != l.id) }
      l.token = none := by
    apply sharedJoin_eq_none
    intro x hx
    simp only [List.mem_filter, bne_iff_ne, ne_eq] at hx
    intro htok
    exact hx.2 (huniq x hx.1 htok)
  simp [resolveShared, getSharedDocument, hjoin]

/-- A concrete unexpired, unlimited share link for exDoc. -/
def exLiveLink : ShareLink :=
  { id := 11, documentId := 1, token := "t", expiresAt := none,
    accessCount := 0, maxAccesses := none }

/-- C7 witness: revoking the one live link of a concrete store makes its
token unresolvable. -/
theorem c7_witness :
    ((({ documents := [exDoc], shareLinks := [exLiveLink] } : Store)).shareLinks.find?
        (fun x => x.id == exLiveLink.id) = some exLiveLink ∧
      getDocument { documents := [exDoc], shareLinks := [exLiveLink] }
        exLiveLink.documentId = some exDoc ∧
      exDoc.userId = 7 ∧
      (∀ x ∈ (({ documents := [exDoc], shareLinks := [exLiveLink] } : Store)).shareLinks,
        x.token = exLiveLink.token → x.id = exLiveLink.id)) ∧
    (resolveShared (revoke { documents := [exDoc], shareLinks := [exLiveLink] }
        exLiveLink.id 7) exLiveLink.token 99).fst = SharedResponse.notFound :=
  ⟨⟨by decide, by decide, by decide, by decide⟩,
    c7_revoke_then_notfound { documents := [exDoc], shareLinks := [exLiveLink] }
      exLiveLink exDoc 7 99 (by decide) (by decide) (by decide) (by decide)⟩

/-- Outcome of the external tesseract call in the process-ocr route: the
recognize promise resolves with result.data.text or rejects. -/
inductive OcrOutcome where
  | text (s : String)
  | failure (msg : String)
deriving DecidableEq, Repr

/-- Response of POST /api/documents/:id/process-ocr. -/
inductive OcrResponse where
  | ok (d : Document)
  | notFound
  | serverError (msg : String)
deriving DecidableEq, Repr

/-- Result of a process-ocr call: HTTP response, final store, and whether
control reached the external engine invocation (worker.recognize). -/
structure OcrRunResult where
  response : OcrResponse
  store : Store
  invoked : Bool
deriving DecidableEq, Repr

/-- The message of the error thrown on empty or whitespace-only OCR text
(src/server/routes.ts line 80). -/
def noTextMsg : String := "No text could be extracted from document"

/-- JavaScript String.prototype.trim: drop leading and trailing whitespace
(executable embedding on the character list). -/
def trimChars (s : String) : String :=
  String.mk (((s.data.dropWhile Char.isWhitespace).reverse.dropWhile
    Char.isWhitespace).reverse)

/-- The partial update of routes.ts lines 66-69. -/
def setOcrProcessing (d : Document) : Document :=
  { d with ocrStatus := some "processing", ocrError := none }

/-- The partial update of routes.ts lines 97-100. -/
def setOcrFailed (msg : String) (d : Document) : Document :=
  { d with ocrStatus := some "error", ocrError := some msg }

/-- The partial update of routes.ts lines 86-90. -/
def setOcrCompleted (t : String) (d : Document) : Document :=
  { d with ocrText := some t, ocrStatus := some "completed", ocrError := none }

/-- POST /api/documents/:id/process-ocr (src/server/routes.ts lines 52-110).
The external engine is a parameter from the file path to an outcome. The
route performs no check of the current ocrStatus: it unconditionally sets
processing and invokes the engine. The empty-text test mirrors
!result.data.text || result.data.text.trim() === ''. -/
def processOcr (st : Store) (docId userId : Nat)
    (engine : String → OcrOutcome) : OcrRunResult :=
  match getDocument st docId with
  | none => ⟨OcrResponse.notFound, st, false⟩
  | some doc =>
    if doc.userId != userId then ⟨OcrResponse.notFound, st, false⟩
    else
      let st1 := updateDocumentFields st doc.id setOcrProcessing
      match engine doc.fileUrl with
      | OcrOutcome.failure msg =>
        ⟨OcrResponse.serverError msg,
          updateDocumentFields st1 doc.id (setOcrFailed msg), true⟩
      | OcrOutcome.text t =>
        if t == "" || trimChars t == "" then
          ⟨OcrResponse.serverError noTextMsg,
            updateDocumentFields st1 doc.id (setOcrFailed noTextMsg), true⟩
        else
          ⟨OcrResponse.ok (setOcrCompleted t (setOcrProcessing doc)),
            updateDocumentFields st1 doc.id (setOcrCompleted t), true⟩

/-- Reading back through an id-preserving partial update: the first row
found by id is the updated row. -/
theorem find_map_update (l : List Document) (id : Nat) (f : Document → Document)
    (hf : ∀ x, (f x).id = x.id) (d : Document)
    (h : l.find? (fun x => x.id == id) = some d) :
    (l.map (fun x => if x.id == id then f x else x)).find? (fun x => x.id == id)
      = some (f d) := by
  induction l with
  | nil => simp at h
  | cons a as ih =>
    simp only [List.map_cons]
    by_cases ha : (a.id == id) = true
    · have h1 : List.find? (fun x => x.id == id) (a :: as) = some a :=
        List.find?_cons_of_pos as ha
      rw [h1] at h
      injection h with h
      subst h
      rw [if_pos ha]
      have hfa : ((f a).id == id) = true := by rw [hf a]; exact ha
      exact List.find?_cons_of_pos _ hfa
    · have hna : ¬ ((fun (x : Document) => x.id == id) a = true) := ha
      have h1 : List.find? (fun x => x.id == id) (a :: as)
          = List.find? (fun x => x.id == id) as :=
        List.find?_cons_of_neg as hna
      rw [h1] at h
      rw [if_neg ha]
      have h2 : List.find? (fun x => x.id == id)
          (a :: (as.map (fun x => if x.id == id then f x else x)))
          = List.find? (fun x => x.id == id)
              (as.map (fun x => if x.id == id then f x else x)) :=
        List.find?_cons_of_neg _ hna
      rw [h2]
      exact ih h

/-- getDocument through updateDocumentFields. -/
theorem getDocument_update (st : Store) (id : Nat) (f : Document → Document)
    (hf : ∀ x, (f x).id = x.id) (d : Document)
    (h : getDocument st id = some d) :
    getDocument (updateDocumentFields st id f) id = some (f d) :=
  find_map_update st.documents id f hf d h

/-- A concrete document whose extraction is already in the processing
state. -/
def exProcessingDoc : Document :=
  { exDoc with id := 2, ocrStatus := some "processing" }

def c3St : Store := { documents := [exProcessingDoc], shareLinks := [] }

def c3Engine : String → OcrOutcome := fun _ => OcrOutcome.text "hello world"

/-- C3 (counterexample): a process-ocr call on a document whose ocrStatus is
already processing does not fail with InvalidState: it re-invokes the
external engine and changes the document's state to completed. -/
theorem c3_reinvokes_counterexample :
    (processOcr c3St 2 7 c3Engine).invoked = true ∧
    (processOcr c3St 2 7 c3Engine).response
      = OcrResponse.ok (setOcrCompleted "hello world" (setOcrProcessing exProcessingDoc)) ∧
    (getDocument (processOcr c3St 2 7 c3Engine).store 2).map Document.ocrStatus
      = some (some "completed") := by
  exact ⟨rfl, rfl, rfl⟩

/-- C3 (amended): the process-ocr route has no ocrStatus guard: invoked on
an owned document already in the processing state it proceeds exactly as on
any other status — it re-invokes the external engine and does not return
NotFound. -/
theorem c3_processing_not_guarded (st : Store) (docId userId : Nat)
    (engine : String → OcrOutcome) (doc : Document)
    (hget : getDocument st docId = some doc) (hown : doc.userId = userId)
    (_hstatus : doc.ocrStatus = some "processing") :
    (processOcr st docId userId engine).invoked = true ∧
    (processOcr st docId userId engine).response ≠ OcrResponse.notFound := by
  rcases heng : engine doc.fileUrl with t | msg
  · by_cases ht : (t == "" || trimChars t == "") = true
    · simp [processOcr, hget, hown, heng, ht]
    · simp [processOcr, hget, hown, heng, ht]
  · simp [processOcr, hget, hown, heng]

/-- C3 witness on the concrete already-processing document. -/
theorem c3_witness :
    (getDocument c3St 2 = some exProcessingDoc ∧ exProcessingDoc.userId = 7 ∧
      exProcessingDoc.ocrStatus = some "processing") ∧
    ((processOcr c3St 2 7 c3Engine).invoked = true ∧
      (processOcr c3St 2 7 c3Engine).response ≠ OcrResponse.notFound) :=
  ⟨⟨by decide, by decide, by decide⟩,
    c3_processing_not_guarded c3St 2 7 c3Engine exProcessingDoc
      (by decide) (by decide) (by decide)⟩

def c4Engine : String → OcrOutcome := fun _ => OcrOutcome.text "   "

/-- C4 (counterexample): on whitespace-only extracted text the persisted
error message is "No text could be extracted from document", not the
"no text extracted" the claim states. -/
theorem c4_message_counterexample :
    (getDocument (processOcr { documents := [exDoc], shareLinks := [] } 1 7 c4Engine).store 1).map
        Document.ocrError = some (some noTextMsg) ∧
    noTextMsg ≠ "no text extracted" := by
  exact ⟨rfl, by decide⟩

/-- C4 (amended): whenever a process-ocr call reaches the extraction stage,
a terminal status is always persisted and observable through getDocument,
and no fault escapes the route: whitespace-only text persists status error
with message "No text could be extracted from document" and answers 500
with that message; an engine failure persists status error with the
failure's message and answers 500 with it. -/
theorem c4_terminal_status_persisted (st : Store) (docId userId : Nat)
    (engine : String → OcrOutcome) (doc : Document)
    (hget : getDocument st docId = some doc) (hown : doc.userId = userId) :
    (∀ t, engine doc.fileUrl = OcrOutcome.text t → trimChars t = "" →
      (processOcr st docId userId engine).response = OcrResponse.serverError noTextMsg ∧
      getDocument (processOcr st docId userId engine).store docId
        = some (setOcrFailed noTextMsg (setOcrProcessing doc))) ∧
    (∀ msg, engine doc.fileUrl = OcrOutcome.failure msg →
      (processOcr st docId userId engine).response = OcrResponse.serverError msg ∧
      getDocument (processOcr st docId userId engine).store docId
        = some (setOcrFailed msg (setOcrProcessing doc))) := by
  have hid : doc.id = docId := by
    have hp := List.find?_some hget
    simpa using hp
  constructor
  · intro t heng ht
    have htt : (t == "" || trimChars t == "") = true := by
      simp [ht]
    constructor
    · simp [processOcr, hget, hown, heng, htt]
    · have hres : (processOcr st docId userId engine).store
          = updateDocumentFields (updateDocumentFields st doc.id setOcrProcessing)
              doc.id (setOcrFailed noTextMsg) := by
        simp [processOcr, hget, hown, heng, htt]
      rw [hres, hid]
      have h1 := getDocument_update st docId setOcrProcessing (fun _ => rfl) doc hget
      exact getDocument_update _ docId (setOcrFailed noTextMsg) (fun _ => rfl) _ h1
  · intro msg heng
    constructor
    · simp [processOcr, hget, hown, heng]
    · have hres : (processOcr st docId userId engine).store
          = updateDocumentFields (updateDocumentFields st doc.id setOcrProcessing)
              doc.id (setOcrFailed msg) := by
        simp [processOcr, hget, hown, heng]
      rw [hres, hid]
      have h1 := getDocument_update st docId setOcrProcessing (fun _ => rfl) doc hget
      exact getDocument_update _ docId (setOcrFailed msg) (fun _ => rfl) _ h1

/-- C4 witness: the whitespace-text case on a concrete store. -/
theorem c4_witness :
    (getDocument { documents := [exDoc], shareLinks := [] } 1 = some exDoc ∧
      exDoc.userId = 7 ∧ c4Engine exDoc.fileUrl = OcrOutcome.text "   " ∧
      trimChars "   " = "") ∧
    ((processOcr { documents := [exDoc], shareLinks := [] } 1 7 c4Engine).response
        = OcrResponse.serverError noTextMsg ∧
      getDocument (processOcr { documents := [exDoc], shareLinks := [] } 1 7 c4Engine).store 1
        = some (setOcrFailed noTextMsg (setOcrProcessing exDoc))) :=
  ⟨⟨by decide, by decide, by decide, by decide⟩,
    (c4_terminal_status_persisted { documents := [exDoc], shareLinks := [] } 1 7 c4Engine exDoc
      (by decide) (by decide)).1 "   " (by decide) (by decide)⟩

/-- Outcome of the OpenAI chat-completions call in the summarize route: the
call resolves with choices[0]?.message?.content (possibly absent) or
rejects. -/
inductive LlmOutcome where
  | content (c : Option String)
  | failure (msg : String)
deriving DecidableEq, Repr

/-- Response of POST /api/documents/:id/summarize. -/
inductive SummarizeResponse where
  | ok (d : Document)
  | notFound
  | badRequest (msg : String)
  | serverError (msg : String)
deriving DecidableEq, Repr

/-- Result of a summarize call: HTTP response, final store, and whether the
route wrote summaryStatus = processing during the call. -/
structure SummarizeRunResult where
  response : SummarizeResponse
  store : Store
  startedProcessing : Bool
deriving DecidableEq, Repr

/-- JavaScript truthiness of a nullable string: null and the empty string
are falsy. -/
def truthyStr : Option String → Bool
  | none => false
  | some s => s != ""

def noOcrTextMsg : String := "No OCR text available for summarization"

def failedSummaryMsg : String := "Failed to generate summary"

/-- The prompt built from the document's OCR text (routes.ts line 310). -/
def summarizePrompt (t : String) : String :=
  "Please summarize the following medical document text, focusing on key medical information, dates, and important details:\n\n" ++ t

/-- The partial update of routes.ts lines 305-308. -/
def setSummaryProcessing (d : Document) : Document :=
  { d with summaryStatus := some "processing", summaryError := none }

/-- The partial update of routes.ts lines 344-347. -/
def setSummaryFailed (msg : String) (d : Document) : Document :=
  { d with summaryStatus := some "error", summaryError := some msg }

/-- The partial update of routes.ts lines 334-338. -/
def setSummaryCompleted (s : String) (d : Document) : Document :=
  { d with summary := some s, summaryStatus := some "completed", summaryError := none }

/-- POST /api/documents/:id/summarize (src/server/routes.ts lines 290-353).
The guard is JavaScript truthiness (!document.ocrText), so it rejects only a
null or empty ocrText; the !summary test likewise treats a missing and an
empty completion alike. -/
def summarizeDocument (st : Store) (docId userId : Nat)
    (llm : String → LlmOutcome) : SummarizeRunResult :=
  match getDocument st docId with
  | none => ⟨SummarizeResponse.notFound, st, false⟩
  | some document =>
    if document.userId != userId then ⟨SummarizeResponse.notFound, st, false⟩
    else if !(truthyStr document.ocrText) then
      ⟨SummarizeResponse.badRequest noOcrTextMsg, st, false⟩
    else
      let st1 := updateDocumentFields st docId setSummaryProcessing
      match llm (summarizePrompt (document.ocrText.getD "")) with
      | LlmOutcome.failure msg =>
        ⟨SummarizeResponse.serverError msg,
          updateDocumentFields st1 docId (setSummaryFailed msg), true⟩
      | LlmOutcome.content c =>
        if (c.getD "") == "" then
          ⟨SummarizeResponse.serverError failedSummaryMsg,
            updateDocumentFields st1 docId (setSummaryFailed failedSummaryMsg), true⟩
        else
          ⟨SummarizeResponse.ok
              (setSummaryCompleted (c.getD "") (setSummaryProcessing document)),
            updateDocumentFields st1 docId (setSummaryCompleted (c.getD "")), true⟩

/-- Blankness as the spec states it: null, empty or whitespace-only. -/
def specBlankText : Option String → Bool
  | none => true
  | some s => trimChars s == ""

/-- A concrete document whose OCR text is whitespace-only. -/
def c5Doc : Document := { exDoc with id := 3, ocrText := some " " }

def c5St : Store := { documents := [c5Doc], shareLinks := [] }

def c5Llm : String → LlmOutcome := fun _ => LlmOutcome.content (some "Summary text")

/-- C5 (counterexample): a document with whitespace-only ocrText is blank in
the spec's sense, yet summarize does not fail fast: it sets summaryStatus to
processing and proceeds instead of answering the precondition error. -/
theorem c5_blank_counterexample :
    specBlankText c5Doc.ocrText = true ∧
    (summarizeDocument c5St 3 7 c5Llm).startedProcessing = true ∧
    (summarizeDocument c5St 3 7 c5Llm).response
      ≠ SummarizeResponse.badRequest noOcrTextMsg := by
  refine ⟨by decide, rfl, by decide⟩

/-- C5 (amended): the summarize guard tests JavaScript truthiness: it fails
fast with the 400 precondition response, and changes nothing, exactly when
ocrText is null or the empty string; any non-empty ocrText — including
whitespace-only text — passes the guard and summaryStatus is set to
processing. -/
theorem c5_guard_null_or_empty (st : Store) (docId userId : Nat)
    (llm : String → LlmOutcome) (doc : Document)
    (hget : getDocument st docId = some doc) (hown : doc.userId = userId) :
    ((doc.ocrText = none ∨ doc.ocrText = some "") →
      (summarizeDocument st docId userId llm).response
        = SummarizeResponse.badRequest noOcrTextMsg ∧
      (summarizeDocument st docId userId llm).store = st ∧
      (summarizeDocument st docId userId llm).startedProcessing = false) ∧
    (∀ s, doc.ocrText = some s → s ≠ "" →
      (summarizeDocument st docId userId llm).startedProcessing = true) := by
  constructor
  · intro hblank
    have htr : truthyStr doc.ocrText = false := by
      rcases hblank with h | h <;> simp [truthyStr, h]
    refine ⟨?_, ?_, ?_⟩ <;> simp [summarizeDocument, hget, hown, htr]
  · intro s hs hne
    have htr : truthyStr doc.ocrText = true := by
      simp [truthyStr, hs, hne]
    rcases hllm : llm (summarizePrompt (doc.ocrText.getD "")) with c | msg
    · by_cases hc : ((c.getD "") == "") = true
      · simp [summarizeDocument, hget, hown, htr, hllm, hc]
      · simp [summarizeDocument, hget, hown, htr, hllm, hc]
    · simp [summarizeDocument, hget, hown, htr, hllm]

/-- C5 witness: the null-text fast-failure branch and the pass-through
branch at concrete inputs. -/
theorem c5_witness :
    (getDocument { documents := [exDoc], shareLinks := [] } 1 = some exDoc ∧
      exDoc.userId = 7 ∧ exDoc.ocrText = none) ∧
    ((summarizeDocument { documents := [exDoc], shareLinks := [] } 1 7 c5Llm).response
        = SummarizeResponse.badRequest noOcrTextMsg ∧
      (summarizeDocument { documents := [exDoc], shareLinks := [] } 1 7 c5Llm).store
        = { documents := [exDoc], shareLinks := [] } ∧
      (summarizeDocument { documents := [exDoc], shareLinks := [] } 1 7 c5Llm).startedProcessing
        = false) :=
  ⟨⟨by decide, by decide, by decide⟩,
    (c5_guard_null_or_empty { documents := [exDoc], shareLinks := [] } 1 7 c5Llm exDoc
      (by decide) (by decide)).1 (Or.inl (by decide))⟩

/-- The multipart body of POST /api/documents as the client sends it:
document-upload.tsx appends name, category, tags, the file — and, after
client-side OCR, an ocrText field. -/
structure UploadRequestBody where
  name : String
  category : String
  tags : List String
  ocrText : Option String
deriving DecidableEq, Repr

/-- The data accepted by insertDocumentSchema (src/shared/schema.ts lines
58-65): the schema omits id, userId, uploadedAt, ocrText, ocrStatus and
ocrError, and zod strips unknown keys on parse. -/
structure InsertDocumentData where
  name : String
  category : String
  tags : List String
  fileUrl : String
deriving DecidableEq, Repr

/-- insertDocumentSchema.parse on the request body plus the multer file
path: any client-supplied ocrText never reaches the parsed insert data. -/
def insertDocumentSchemaParse (body : UploadRequestBody) (filePath : String) :
    InsertDocumentData :=
  { name := body.name, category := body.category, tags := body.tags,
    fileUrl := filePath }

/-- POST /api/documents (src/server/routes.ts lines 23-49) followed by
DatabaseStorage.createDocument: the route always inserts with
ocrStatus = pending and ocrError = null; ocrText is absent from the insert,
so the column default null applies. The generated row id and the
uploaded_at default now are parameters of the embedding. -/
def uploadDocument (st : Store) (userId : Nat) (body : UploadRequestBody)
    (filePath : String) (newId now : Nat) : Document × Store :=
  let docData := insertDocumentSchemaParse body filePath
  let document : Document :=
    { id := newId, userId := userId, name := docData.name,
      category := docData.category, tags := docData.tags, uploadedAt := now,
      fileUrl := docData.fileUrl, ocrText := none, ocrStatus := some "pending",
      ocrError := none, summary := none, summaryStatus := none,
      summaryError := none }
  (document, { st with documents := st.documents ++ [document] })

/-- C6 (counterexample): a caller-supplied precomputed text does not yield a
completed document: the upload with ocrText "Patient: Jane Doe" produces a
pending document with no extracted text. -/
theorem c6_precomputed_counterexample :
    (uploadDocument { documents := [], shareLinks := [] } 7
        { name := "Scan", category := "Labs", tags := [],
          ocrText := some "Patient: Jane Doe" } "uploads/x" 1 0).fst.ocrText
      ≠ some "Patient: Jane Doe" ∧
    (uploadDocument { documents := [], shareLinks := [] } 7
        { name := "Scan", category := "Labs", tags := [],
          ocrText := some "Patient: Jane Doe" } "uploads/x" 1 0).fst.ocrStatus
      ≠ some "completed" := by
  exact ⟨by decide, by decide⟩

/-- C6 (amended): every document creation — with or without client-supplied
precomputed text — initializes extraction as pending with null text and
error: the insert schema discards the supplied ocrText field. -/
theorem c6_upload_always_pending (st : Store) (userId : Nat)
    (body : UploadRequestBody) (filePath : String) (newId now : Nat) :
    (uploadDocument st userId body filePath newId now).fst.ocrStatus
      = some "pending" ∧
    (uploadDocument st userId body filePath newId now).fst.ocrText = none ∧
    (uploadDocument st userId body filePath newId now).fst.ocrError = none := by
  exact ⟨rfl, rfl, rfl⟩

/-- A character-list test for one list leading another, used below. -/
def leadsWith : List Char → List Char → Bool
  | [], _ => true
  | _ :: _, [] => false
  | a :: as, b :: bs => a == b && leadsWith as bs

/-- Substring containment on character lists. -/
def hasSub (sub : List Char) : List Char → Bool
  | [] => leadsWith sub []
  | c :: cs => leadsWith sub (c :: cs) || hasSub sub cs

/-- JavaScript String.prototype.includes. -/
def strIncludes (s sub : String) : Bool := hasSub sub.data s.data

/-- JavaScript String.prototype.toLowerCase, restricted to the character
map. -/
def lowerStr (s : String) : String := String.mk (s.data.map Char.toLower)

/-- The query parameters of GET /api/documents; a filter is absent when the
query-string value is missing or falsy. startDate and endDate carry the
parsed Date value in milliseconds (local midnight for date-only input). -/
structure SearchFilters where
  query : Option String
  category : Option String
  tags : Option (List String)
  startDate : Option Nat
  endDate : Option Nat
deriving DecidableEq, Repr

/-- One conditional post-filter block of the search route: applied only when
the parameter is present. -/
def optFilter {β : Type} (o : Option β) (p : β → Document → Bool)
    (l : List Document) : List Document :=
  match o with
  | none => l
  | some v => l.filter (p v)

/-- end.setHours(23, 59, 59, 999) applied to a local-midnight date value
(routes.ts line 225). -/
def endOfDay (e : Nat) : Nat := e + (23 * 60 * 60 + 59 * 60 + 59) * 1000 + 999

/-- The free-text filter of routes.ts lines 191-198; doc.ocrText is guarded
by truthiness before the substring test. -/
def queryPred (q : String) (doc : Document) : Bool :=
  strIncludes (lowerStr doc.name) (lowerStr q) ||
    (match doc.ocrText with
     | some t => t != "" && strIncludes (lowerStr t) (lowerStr q)
     | none => false)

/-- The category filter of routes.ts lines 200-205. -/
def categoryPred (c : String) (doc : Document) : Bool := doc.category == c

/-- The tag filter of routes.ts lines 207-213:
searchTags.every(tag at doc.tags.includes(tag)). -/
def tagsPred (searchTags : List String) (doc : Document) : Bool :=
  searchTags.all (fun tag => doc.tags.contains tag)

/-- The start-date filter of routes.ts lines 215-221. -/
def startDatePred (s : Nat) (doc : Document) : Bool := decide (s ≤ doc.uploadedAt)

/-- The end-date filter of routes.ts lines 223-230. -/
def endDatePred (e : Nat) (doc : Document) : Bool :=
  decide (doc.uploadedAt ≤ endOfDay e)

/-- GET /api/documents (src/server/routes.ts lines 179-238): sequential
in-memory post-filters over the user's document list. -/
def searchDocuments (docs : List Document) (f : SearchFilters) : List Document :=
  let d1 := optFilter f.query queryPred docs
  let d2 := optFilter f.category categoryPred d1
  let d3 := optFilter f.tags tagsPred d2
  let d4 := optFilter f.startDate startDatePred d3
  optFilter f.endDate endDatePred d4

/-- Membership in an optional filter implies membership in its input. -/
theorem mem_of_optFilter {β : Type} (o : Option β) (p : β → Document → Bool)
    (l : List Document) (x : Document) (h : x ∈ optFilter o p l) : x ∈ l := by
  cases o with
  | none => exact h
  | some v => exact (List.mem_filter.mp h).1

/-- Membership in a present optional filter implies its predicate. -/
theorem optFilter_pred {β : Type} (v : β) (p : β → Document → Bool)
    (l : List Document) (x : Document) (h : x ∈ optFilter (some v) p l) :
    p v x = true := (List.mem_filter.mp h).2

/-- C8: the tag filter has AND semantics: a document is returned by a search
with tag set T only if it carries every tag of T; in particular searching
with two tags excludes any document carrying only one of them. -/
theorem c8_tags_and_semantics (docs : List Document) (f : SearchFilters)
    (T : List String) (doc : Document)
    (hT : f.tags = some T) (hmem : doc ∈ searchDocuments docs f) :
    ∀ tag ∈ T, tag ∈ doc.tags := by
  unfold searchDocuments at hmem
  have h4 := mem_of_optFilter f.endDate endDatePred _ doc hmem
  have h3 := mem_of_optFilter f.startDate startDatePred _ doc h4
  rw [hT] at h3
  have hp := optFilter_pred T tagsPred _ doc h3
  intro tag htag
  have := (List.all_eq_true.mp hp) tag htag
  simpa using this

/-- C8 witness: the two-tag search returns the both-tag document, whose tags
therefore contain both; also a concrete check that the one-tag document is
excluded. -/
theorem c8_witness :
    (({ query := none, category := none, tags := some ["a", "b"],
        startDate := none, endDate := none } : SearchFilters).tags
      = some ["a", "b"] ∧
      { exDoc with tags := ["a", "b"] } ∈ searchDocuments
        [{ exDoc with tags := ["a", "b"] }, exDoc]
        { query := none, category := none, tags := some ["a", "b"],
          startDate := none, endDate := none }) ∧
    (∀ tag ∈ (["a", "b"] : List String),
      tag ∈ ({ exDoc with tags := ["a", "b"] } : Document).tags) ∧
    exDoc ∉ searchDocuments [{ exDoc with tags := ["a", "b"] }, exDoc]
      { query := none, category := none, tags := some ["a", "b"],
        startDate := none, endDate := none } :=
  ⟨⟨rfl, by decide⟩,
    c8_tags_and_semantics [{ exDoc with tags := ["a", "b"] }, exDoc]
      { query := none, category := none, tags := some ["a", "b"],
        startDate := none, endDate := none }
      ["a", "b"] { exDoc with tags := ["a", "b"] } rfl (by decide),
    by decide⟩

/-- C9: the date range is inclusive against uploadedAt with endDate extended
to end-of-day: any present startDate excludes uploads before it, any present
endDate excludes uploads after its 23:59:59.999, and with
startDate = endDate = D1 and no other filters, exactly the documents
uploaded during day D1 are returned. -/
theorem c9_date_range_inclusive (docs : List Document) (f : SearchFilters)
    (doc : Document) (s : Nat) :
    (∀ s0, f.startDate = some s0 → doc ∈ searchDocuments docs f →
      s0 ≤ doc.uploadedAt) ∧
    (∀ e0, f.endDate = some e0 → doc ∈ searchDocuments docs f →
      doc.uploadedAt ≤ endOfDay e0) ∧
    (doc ∈ docs →
      (doc ∈ searchDocuments docs
          { query := none, category := none, tags := none,
            startDate := some s, endDate := some s } ↔
        s ≤ doc.uploadedAt ∧ doc.uploadedAt ≤ endOfDay s)) := by
  refine ⟨?_, ?_, ?_⟩
  · intro s0 hs0 hmem
    unfold searchDocuments at hmem
    have h4 := mem_of_optFilter f.endDate endDatePred _ doc hmem
    rw [hs0] at h4
    have hp := optFilter_pred s0 startDatePred _ doc h4
    simpa [startDatePred] using hp
  · intro e0 he0 hmem
    unfold searchDocuments at hmem
    rw [he0] at hmem
    have hp := optFilter_pred e0 endDatePred _ doc hmem
    simpa [endDatePred] using hp
  · intro hdoc
    unfold searchDocuments optFilter
    simp only [List.mem_filter, startDatePred, endDatePred, decide_eq_true_eq]
    constructor
    · rintro ⟨⟨_, h1⟩, h2⟩
      exact ⟨h1, h2⟩
    · rintro ⟨h1, h2⟩
      exact ⟨⟨hdoc, h1⟩, h2⟩

/-- C9 witness: a document uploaded at instant 500 of day 0 is returned by
the search with startDate = endDate = day 0 and bounded by its limits. -/
theorem c9_witness :
    (exDoc ∈ [exDoc] ∧
      (exDoc ∈ searchDocuments [exDoc]
          { query := none, category := none, tags := none,
            startDate := some 0, endDate := some 0 } ↔
        0 ≤ exDoc.uploadedAt ∧ exDoc.uploadedAt ≤ endOfDay 0)) ∧
    exDoc ∈ searchDocuments [exDoc]
      { query := none, category := none, tags := none,
        startDate := some 0, endDate := some 0 } ∧
    0 ≤ exDoc.uploadedAt ∧ exDoc.uploadedAt ≤ endOfDay 0 := by
  have hall := c9_date_range_inclusive [exDoc]
    { query := none, category := none, tags := none,
      startDate := some 0, endDate := some 0 } exDoc 0
  have h := hall.2.2 (by decide)
  have hmem := h.mpr ⟨by decide, by decide⟩
  exact ⟨⟨by decide, h⟩, hmem, hall.1 0 rfl hmem, hall.2.1 0 rfl hmem⟩

/-- C1 (counterexample): at the boundary instant now = expiresAt the spec
requires resolution to fail, but the code's expiry check is strict
(expiresAt < now), so resolution succeeds while the spec-side condition is
false: the claimed equivalence fails at this input. -/
theorem c1_boundary_counterexample :
    (resolveShared exBoundarySt "t" 1000).fst = SharedResponse.ok exDoc ∧
    specShareLinkResolvable exBoundarySt "t" 1000 = false := by
  constructor <;> rfl

/-- C1 (amended): resolve(token) returns the joined document exactly when
the link exists AND (expiresAt is null OR now ≤ expiresAt, i.e. the boundary
instant still succeeds) AND (maxAccesses is null or 0 OR
accessCount < maxAccesses); in every other case it returns NotFound. -/
theorem c1_resolve_characterization (st : Store) (token : String) (now : Nat) :
    (∃ d l, sharedJoin st token = some (d, l) ∧
      (resolveShared st token now).fst = SharedResponse.ok d ∧
      (l.expiresAt = none ∨ ∃ e, l.expiresAt = some e ∧ now ≤ e) ∧
      (l.maxAccesses = none ∨ l.maxAccesses = some 0 ∨
        ∃ m, l.maxAccesses = some m ∧ l.accessCount < m)) ∨
    ((resolveShared st token now).fst = SharedResponse.notFound ∧
      (sharedJoin st token = none ∨
       ∃ d l, sharedJoin st token = some (d, l) ∧
         ((∃ e, l.expiresAt = some e ∧ e < now) ∨
          (∃ m, l.maxAccesses = some m ∧ 0 < m ∧ m ≤ l.accessCount)))) := by
  rcases hj : sharedJoin st token with _ | ⟨d, l⟩
  · right
    constructor
    · simp [resolveShared, getSharedDocument, hj]
    · exact Or.inl rfl
  · by_cases hexp : shareLinkExpired l now = true
    · right
      constructor
      · simp [resolveShared, getSharedDocument, hj, hexp]
      · refine Or.inr ⟨d, l, rfl, Or.inl ?_⟩
        unfold shareLinkExpired at hexp
        rcases hE : l.expiresAt with _ | e
        · rw [hE] at hexp; simp at hexp
        · rw [hE] at hexp; exact ⟨e, rfl, by simpa using hexp⟩
    · by_cases hmax : shareLinkMaxReached l = true
      · right
        constructor
        · simp [resolveShared, getSharedDocument, hj, hexp, hmax]
        · refine Or.inr ⟨d, l, rfl, Or.inr ?_⟩
          unfold shareLinkMaxReached at hmax
          rcases hM : l.maxAccesses with _ | m
          · rw [hM] at hmax; simp at hmax
          · rw [hM] at hmax
            simp only [Bool.and_eq_true, bne_iff_ne, ne_eq, decide_eq_true_eq] at hmax
            exact ⟨m, rfl, Nat.pos_of_ne_zero hmax.1, hmax.2⟩
      · left
        refine ⟨d, l, rfl, ?_, ?_, ?_⟩
        · simp [resolveShared, getSharedDocument, hj, hexp, hmax]
        · unfold shareLinkExpired at hexp
          rcases hE : l.expiresAt with _ | e
          · exact Or.inl rfl
          · rw [hE] at hexp
            simp only [decide_eq_true_eq] at hexp
            exact Or.inr ⟨e, rfl, Nat.le_of_not_lt (by simpa using hexp)⟩
        · unfold shareLinkMaxReached at hmax
          rcases hM : l.maxAccesses with _ | m
          · exact Or.inl rfl
          · rw [hM] at hmax
            simp only [Bool.and_eq_true, bne_iff_ne, ne_eq, decide_eq_true_eq,
              not_and] at hmax
            by_cases hm0 : m = 0
            · subst hm0
              exact Or.inr (Or.inl rfl)
            · exact Or.inr (Or.inr ⟨m, rfl, Nat.lt_of_not_le (hmax hm0)⟩)

end MedShare
